import Mathlib

/-!
Verification of the CSE fundamental-analyzer scoring core.

This file gives a shallow embedding, in Lean 4, of the scoring, grading and
screening logic of the repository:

* `analysis/comprehensive_analysis.py` (class `ComprehensiveInvestmentAnalyzer`):
  the Piotroski, Altman, Graham, magic-formula computations, the six 0-100
  sub-scores, the weighted composite score, the letter grade and the
  recommendation decision tree.
* `analysis/advanced_metrics.py` (class `AdvancedMetricsCalculator`): the row
  level accruals / earnings-quality computation.
* `analysis/screeners.py` (class `StockScreener`): criterion application and
  the `screen` fold.

Modelling conventions; Python floats are modelled as exact rationals (the
formulas involve only field arithmetic and comparisons); `round(x, 2)` is
modelled as round-half-up to two decimals (Python uses round-half-even, which
differs only on exact half-cent ties, never reached in the claims below);
`float(...)` coercion failures, absent keys and `None` values all collapse to
the per-call default, so an input field is modelled as `Option ℚ` where
`none` covers a missing key, a `None` value, and an unparsable string alike,
exactly the cases in which `_get_float` returns its `default` argument.
-/

/-- A row of company fundamentals, as consumed by
`ComprehensiveInvestmentAnalyzer.analyze_company`.  Every field the analyzer
reads is optional: `none` means the key is absent, `None`, or unparsable, in
which case `_get_float` falls back to the per-call default.  The Python keys
`52_week_high` and `52_week_low` are rendered `week52_high` / `week52_low`. -/
structure CompanyRecord where
  net_profit : Option ℚ
  eps : Option ℚ
  operating_cash_flow : Option ℚ
  roa : Option ℚ
  roe : Option ℚ
  debt_equity : Option ℚ
  current_ratio : Option ℚ
  gross_margin : Option ℚ
  net_margin : Option ℚ
  asset_turnover : Option ℚ
  total_assets : Option ℚ
  total_liabilities : Option ℚ
  market_cap : Option ℚ
  revenue : Option ℚ
  shareholders_equity : Option ℚ
  operating_income : Option ℚ
  nav : Option ℚ
  last_traded_price : Option ℚ
  pe_ratio : Option ℚ
  pb_ratio : Option ℚ
  dividend_yield : Option ℚ
  dividend_per_share : Option ℚ
  week52_high : Option ℚ
  week52_low : Option ℚ
  change_percent : Option ℚ

/-- Embeds `_get_float(data, key, default)` (comprehensive_analysis.py,
lines 832-842): the stored value when present and parsable, the default
otherwise. -/
def getFloat (v : Option ℚ) (default : ℚ) : ℚ :=
  v.getD default

/-- A record with every optional field missing: the shape of the input
`{"symbol": "TEST"}` once the symbol string is set aside. -/
def emptyRecord : CompanyRecord :=
  ⟨none, none, none, none, none, none, none, none, none, none, none, none,
   none, none, none, none, none, none, none, none, none, none, none, none,
   none⟩

/-- Python `int(x)`: truncation toward zero. -/
def pyInt (q : ℚ) : ℤ :=
  if 0 ≤ q then ⌊q⌋ else ⌈q⌉

/-- Python `round(x, 2)` modelled as round-half-up to two decimal places. -/
def round2 (q : ℚ) : ℚ :=
  (⌊q * 100 + 1 / 2⌋ : ℚ) / 100

/-- Embeds `calculate_piotroski_f_score` (lines 147-227): nine boolean
signals, one point each, capped at 9. -/
def calculate_piotroski_f_score (data : CompanyRecord) : ℤ :=
  let np := getFloat data.net_profit 0
  let eps := getFloat data.eps 0
  let ocf := getFloat data.operating_cash_flow 0
  let roa := getFloat data.roa 0
  let roe := getFloat data.roe 0
  let de := getFloat data.debt_equity 1
  let cr := getFloat data.current_ratio 1
  let gm := getFloat data.gross_margin 0
  let atv := getFloat data.asset_turnover 0
  let s1 : ℤ := if 0 < np ∨ 0 < eps then 1 else 0
  let s2 : ℤ := if 0 < ocf then 1 else 0
  let s3 : ℤ := if 0 < roa then 1 else 0
  let s4 : ℤ := if np < ocf ∧ 0 < np then 1 else if 0 < ocf ∧ 0 < eps then 1 else 0
  let s5 : ℤ := if de < 1 / 2 then 1 else 0
  let s6 : ℤ := if 1 < cr then 1 else 0
  let s7 : ℤ := if de < 1 ∧ 10 < roe then 1 else 0
  let s8 : ℤ := if 20 < gm then 1 else 0
  let s9 : ℤ := if 1 / 2 < atv then 1 else 0
  min (s1 + s2 + s3 + s4 + s5 + s6 + s7 + s8 + s9) 9

/-- Embeds `calculate_altman_z_score` (lines 229-295): five clamped proxy
components combined with the 1.2 / 1.4 / 3.3 / 0.6 / 1.0 weights, rounded to
two decimals.  Returns 0 when total assets are nonpositive. -/
def calculate_altman_z_score (data : CompanyRecord) : ℚ :=
  let ta := getFloat data.total_assets 1
  let tl := getFloat data.total_liabilities 0
  let mc := getFloat data.market_cap 0
  let rev := getFloat data.revenue 0
  let se := getFloat data.shareholders_equity 0
  let cr := getFloat data.current_ratio 1
  let oi := getFloat data.operating_income 0
  let np := getFloat data.net_profit 0
  if ta ≤ 0 then 0
  else
    let A := max (min ((cr - 1) * (3 / 10)) (1 / 2)) (-(3 / 10))
    let B := max (min (if 0 < se then se / ta * (7 / 10) else 0) (1 / 2)) 0
    let C0 := if 0 < oi then oi / ta else if 0 < np then np / ta * (13 / 10) else 0
    let C := max (min C0 (3 / 10)) (-(1 / 10))
    let D := max (min (if 0 < tl then mc / tl else 5) 5) 0
    let E := max (min (if 0 < rev then rev / ta else 0) 2) 0
    round2 (12 / 10 * A + 14 / 10 * B + 33 / 10 * C + 6 / 10 * D + 1 * E)

/-- Computes `round(Real.sqrt q * 100) / 100` for a positive rational `q`
without leaving the rationals: with `q = a / b` in lowest terms, the rounded
value of `100 * sqrt q = sqrt (40000 a b) / (2 b)` is
`(Nat.sqrt (40000 a b) + b) / (2 b)` in natural division.  Used to embed the
float expression `(22.5 * eps * nav) ** 0.5` followed by `round(., 2)`. -/
def sqrtRound2 (q : ℚ) : ℚ :=
  (((Nat.sqrt (40000 * q.num.toNat * q.den) + q.den) / (2 * q.den) : ℕ) : ℚ) / 100

/-- Embeds `calculate_graham_number` (lines 297-317): the square root of
`22.5 * eps * nav` rounded to two decimals when both inputs are positive,
0 otherwise. -/
def calculate_graham_number (data : CompanyRecord) : ℚ :=
  let eps := getFloat data.eps 0
  let nav := getFloat data.nav 0
  if 0 < eps ∧ 0 < nav then sqrtRound2 (45 / 2 * eps * nav) else 0

/-- Embeds `calculate_graham_upside` (lines 319-335) with the Graham number
passed in, as `analyze_company` does. -/
def calculate_graham_upside (data : CompanyRecord) (graham_number : ℚ) : ℚ :=
  let price := getFloat data.last_traded_price 0
  if 0 < price ∧ 0 < graham_number then round2 ((graham_number - price) / price * 100)
  else 0

/-- Embeds `calculate_magic_formula_rank` (lines 337-370). -/
def calculate_magic_formula_rank (data : CompanyRecord) : ℤ :=
  let pe := getFloat data.pe_ratio 20
  let ey := if 0 < pe then 1 / pe * 100 else 0
  let roe := getFloat data.roe 10
  let de := getFloat data.debt_equity (1 / 2)
  let roc := if 0 < de then roe / (1 + de) else roe
  let eyScore := min ey 20 / 20 * 50
  let rocScore := min roc 30 / 30 * 50
  let rank := 100 - pyInt (eyScore + rocScore)
  max 1 (min rank 100)

/-- Embeds `calculate_quality_score` (lines 372-443): five threshold ladders
over ROE, ROA, gross margin, net margin and asset turnover, capped at 100. -/
def calculate_quality_score (data : CompanyRecord) : ℕ :=
  let roe := getFloat data.roe 0
  let roa := getFloat data.roa 0
  let gm := getFloat data.gross_margin 0
  let nm := getFloat data.net_margin 0
  let atv := getFloat data.asset_turnover 0
  let p1 : ℕ :=
    if 25 ≤ roe then 30 else if 20 ≤ roe then 25 else if 15 ≤ roe then 20
    else if 10 ≤ roe then 15 else if 5 ≤ roe then 10 else if 0 < roe then 5 else 0
  let p2 : ℕ :=
    if 15 ≤ roa then 20 else if 10 ≤ roa then 15 else if 7 ≤ roa then 10
    else if 5 ≤ roa then 7 else if 0 < roa then 3 else 0
  let p3 : ℕ :=
    if 40 ≤ gm then 20 else if 30 ≤ gm then 15 else if 20 ≤ gm then 10
    else if 15 ≤ gm then 5 else 0
  let p4 : ℕ :=
    if 20 ≤ nm then 20 else if 15 ≤ nm then 15 else if 10 ≤ nm then 10
    else if 5 ≤ nm then 5 else 0
  let p5 : ℕ :=
    if 3 / 2 ≤ atv then 10 else if 1 ≤ atv then 7 else if 1 / 2 ≤ atv then 4 else 0
  min (p1 + p2 + p3 + p4 + p5) 100

/-- Embeds `calculate_safety_score` (lines 445-499): ladders over debt/equity,
current ratio and EPS, capped at 100. -/
def calculate_safety_score (data : CompanyRecord) : ℕ :=
  let de := getFloat data.debt_equity 1
  let cr := getFloat data.current_ratio 1
  let eps := getFloat data.eps 0
  let p1 : ℕ :=
    if de ≤ 1 / 5 then 40 else if de ≤ 3 / 10 then 35 else if de ≤ 1 / 2 then 30
    else if de ≤ 7 / 10 then 25 else if de ≤ 1 then 20 else if de ≤ 3 / 2 then 10 else 0
  let p2 : ℕ :=
    if 5 / 2 ≤ cr then 30 else if 2 ≤ cr then 25 else if 3 / 2 ≤ cr then 20
    else if 6 / 5 ≤ cr then 15 else if 1 ≤ cr then 10 else if 4 / 5 ≤ cr then 5 else 0
  let p3 : ℕ :=
    if 10 < eps then 30 else if 5 < eps then 25 else if 2 < eps then 20
    else if 0 < eps then 15 else 0
  min (p1 + p2 + p3) 100

/-- Embeds `calculate_value_score` (lines 501-563): ladders over P/E, P/B and
dividend yield, capped at 100. -/
def calculate_value_score (data : CompanyRecord) : ℕ :=
  let pe := getFloat data.pe_ratio 30
  let pb := getFloat data.pb_ratio 3
  let dy := getFloat data.dividend_yield 0
  let p1 : ℕ :=
    if 0 < pe ∧ pe ≤ 8 then 35 else if pe ≤ 10 then 30 else if pe ≤ 12 then 25
    else if pe ≤ 15 then 20 else if pe ≤ 20 then 15 else if pe ≤ 25 then 10
    else if pe ≤ 30 then 5 else 0
  let p2 : ℕ :=
    if 0 < pb ∧ pb ≤ 7 / 10 then 35 else if pb ≤ 1 then 30 else if pb ≤ 6 / 5 then 25
    else if pb ≤ 3 / 2 then 20 else if pb ≤ 2 then 15 else if pb ≤ 5 / 2 then 10
    else if pb ≤ 3 then 5 else 0
  let p3 : ℕ :=
    if 8 ≤ dy then 30 else if 6 ≤ dy then 25 else if 5 ≤ dy then 20
    else if 4 ≤ dy then 15 else if 3 ≤ dy then 10 else if 2 ≤ dy then 5 else 0
  min (p1 + p2 + p3) 100

/-- Embeds `calculate_dividend_score` (lines 565-616): yield ladder, payout
band and a has-dividend bonus, capped at 100. -/
def calculate_dividend_score (data : CompanyRecord) : ℕ :=
  let dy := getFloat data.dividend_yield 0
  let dps := getFloat data.dividend_per_share 0
  let eps := getFloat data.eps 0
  let pr := if 0 < eps ∧ 0 < dps then dps / eps * 100 else 0
  let p1 : ℕ :=
    if 8 ≤ dy then 50 else if 6 ≤ dy then 45 else if 5 ≤ dy then 40
    else if 4 ≤ dy then 35 else if 3 ≤ dy then 25 else if 2 ≤ dy then 15
    else if 1 ≤ dy then 5 else 0
  let p2 : ℕ :=
    if 30 ≤ pr ∧ pr ≤ 50 then 30 else if 20 ≤ pr ∧ pr ≤ 60 then 25
    else if 10 ≤ pr ∧ pr ≤ 70 then 20 else if 70 < pr ∧ pr ≤ 80 then 10
    else if 0 < pr then 5 else 0
  let p3 : ℕ := if 0 < dy ∧ 0 < dps then 20 else 0
  min (p1 + p2 + p3) 100

/-- Embeds `calculate_growth_score` (lines 618-684): ROE ladder, sustainable
growth ladder and a PEG-proxy ladder, capped at 100. -/
def calculate_growth_score (data : CompanyRecord) : ℕ :=
  let roe := getFloat data.roe 0
  let pe := getFloat data.pe_ratio 20
  let dps := getFloat data.dividend_per_share 0
  let eps := getFloat data.eps 0
  let payout := if 0 < eps ∧ 0 < dps then dps / eps else 1 / 2
  let retention := 1 - payout
  let sg := if 0 < roe then roe * retention else 0
  let p1 : ℕ :=
    if 25 ≤ roe then 35 else if 20 ≤ roe then 30 else if 15 ≤ roe then 25
    else if 12 ≤ roe then 20 else if 10 ≤ roe then 15 else if 5 ≤ roe then 10 else 0
  let p2 : ℕ :=
    if 20 ≤ sg then 35 else if 15 ≤ sg then 30 else if 12 ≤ sg then 25
    else if 10 ≤ sg then 20 else if 8 ≤ sg then 15 else if 5 ≤ sg then 10 else 0
  let peg := if 0 < sg then pe / max sg 5 else pe / 10
  let p3 : ℕ :=
    if peg ≤ 1 / 2 then 30 else if peg ≤ 1 then 25 else if peg ≤ 3 / 2 then 20
    else if peg ≤ 2 then 15 else if peg ≤ 5 / 2 then 10 else 0
  min (p1 + p2 + p3) 100

/-- Embeds `calculate_momentum_score` (lines 686-745): 52-week range position
with a mid-range sweet spot, a recent-change ladder and a
discount-from-high band, capped at 100. -/
def calculate_momentum_score (data : CompanyRecord) : ℕ :=
  let price := getFloat data.last_traded_price 0
  let high52 := getFloat data.week52_high (price * (12 / 10))
  let low52 := getFloat data.week52_low (price * (8 / 10))
  let chg := getFloat data.change_percent 0
  let p1 : ℕ :=
    if low52 < high52 then
      let position := (price - low52) / (high52 - low52) * 100
      if 40 ≤ position ∧ position ≤ 60 then 50
      else if 30 ≤ position ∧ position ≤ 70 then 40
      else if 20 ≤ position ∧ position ≤ 80 then 30
      else if position ≤ 20 then 35
      else if 80 ≤ position then 20 else 0
    else 0
  let p2 : ℕ :=
    if 3 ≤ chg then 30 else if 2 ≤ chg then 25 else if 1 ≤ chg then 20
    else if 0 ≤ chg then 15 else if -1 ≤ chg then 10 else if -2 ≤ chg then 5 else 0
  let p3 : ℕ :=
    if 0 < high52 then
      let discount := (high52 - price) / high52 * 100
      if 20 ≤ discount ∧ discount ≤ 40 then 20
      else if 10 ≤ discount ∧ discount ≤ 50 then 15
      else if discount < 10 then 10
      else if 50 < discount then 5 else 0
    else 0
  min (p1 + p2 + p3) 100

/-- Embeds `calculate_composite_score` (lines 747-773): the fixed-weight sum
of the six sub-scores, capped above at 100 and truncated to an `int`.  In the
source the six keyword arguments default to 50 when omitted;
`analyze_company` always passes all six, which is the calling convention
modelled here. -/
def calculate_composite_score (value quality safety dividend growth momentum : ℕ) : ℤ :=
  pyInt (min ((value : ℚ) * (25 / 100) + (quality : ℚ) * (25 / 100) +
      (safety : ℚ) * (20 / 100) + (dividend : ℚ) * (15 / 100) +
      (growth : ℚ) * (10 / 100) + (momentum : ℚ) * (5 / 100)) 100)

/-- Embeds the composite-based grade ladder opening `determine_grade`
(lines 781-791). -/
def baseGrade (composite : ℤ) : Char :=
  if 80 ≤ composite then 'A'
  else if 65 ≤ composite then 'B'
  else if 50 ≤ composite then 'C'
  else if 35 ≤ composite then 'D'
  else 'F'

/-- Embeds the Piotroski adjustment of `determine_grade` (lines 793-797):
character arithmetic on the grade letter. -/
def pioAdjust (piotroski : ℤ) (g : Char) : Char :=
  if 7 ≤ piotroski ∧ (g = 'B' ∨ g = 'C') then Char.ofNat (g.toNat - 1)
  else if piotroski ≤ 3 ∧ (g = 'A' ∨ g = 'B' ∨ g = 'C') then Char.ofNat (g.toNat + 1)
  else g

/-- Embeds the Altman adjustment of `determine_grade` (lines 799-801):
`chr(min(ord(grade) + 1, ord(F)))` for any non-F grade in distress. -/
def altmanAdjust (altman : ℚ) (g : Char) : Char :=
  if altman < 181 / 100 ∧ g ≠ 'F' then Char.ofNat (min (g.toNat + 1) 70)
  else g

/-- Embeds `determine_grade` (lines 775-803): base grade from the composite,
then the Piotroski adjustment, then the Altman adjustment, in source order. -/
def determine_grade (composite piotroski : ℤ) (altman : ℚ) : Char :=
  altmanAdjust altman (pioAdjust piotroski (baseGrade composite))

/-- Embeds `generate_recommendation` (lines 805-830): a cascading if/elif
decision tree, first match wins. -/
def generate_recommendation (composite piotroski : ℤ) (altman graham_upside : ℚ) : String :=
  if altman < 3 / 2 then "Avoid - High Bankruptcy Risk"
  else if piotroski ≤ 2 then "Avoid - Weak Financials"
  else if 75 ≤ composite ∧ 7 ≤ piotroski ∧ 20 < graham_upside then "Strong Buy"
  else if 65 ≤ composite ∧ 6 ≤ piotroski ∧ 0 < graham_upside then "Buy"
  else if 50 ≤ composite ∧ 5 ≤ piotroski then "Hold"
  else if 35 ≤ composite then "Weak Hold"
  else "Sell / Avoid"

/-- Mirror of the `InvestmentScores` dataclass (lines 24-40). -/
structure InvestmentScores where
  piotroski_f_score : ℤ
  altman_z_score : ℚ
  graham_number : ℚ
  graham_upside : ℚ
  magic_formula_rank : ℤ
  quality_score : ℕ
  safety_score : ℕ
  value_score : ℕ
  dividend_score : ℕ
  growth_score : ℕ
  momentum_score : ℕ
  composite_score : ℤ
  investment_grade : Char
  recommendation : String
deriving DecidableEq

/-- Embeds `analyze_company` (lines 89-145): every score computed from the
record, the composite from the six sub-scores, then grade and
recommendation. -/
def analyze_company (data : CompanyRecord) : InvestmentScores :=
  let piotroski := calculate_piotroski_f_score data
  let altman := calculate_altman_z_score data
  let graham := calculate_graham_number data
  let graham_upside := calculate_graham_upside data graham
  let magic_rank := calculate_magic_formula_rank data
  let quality := calculate_quality_score data
  let safety := calculate_safety_score data
  let value := calculate_value_score data
  let dividend := calculate_dividend_score data
  let growth := calculate_growth_score data
  let momentum := calculate_momentum_score data
  let composite := calculate_composite_score value quality safety dividend growth momentum
  ⟨piotroski, altman, graham, graham_upside, magic_rank, quality, safety, value,
   dividend, growth, momentum, composite,
   determine_grade composite piotroski altman,
   generate_recommendation composite piotroski altman graham_upside⟩

lemma pyInt_eq {q : ℚ} {n : ℤ} (h0 : 0 ≤ n) (h1 : (n : ℚ) ≤ q) (h2 : q < n + 1) :
    pyInt q = n := by
  have hq : 0 ≤ q := le_trans (by exact_mod_cast h0) h1
  rw [pyInt, if_pos hq]
  exact Int.floor_eq_iff.mpr ⟨h1, h2⟩

lemma baseGrade_mem (c : ℤ) :
    baseGrade c = 'A' ∨ baseGrade c = 'B' ∨ baseGrade c = 'C' ∨ baseGrade c = 'D' ∨
      baseGrade c = 'F' := by
  unfold baseGrade
  split_ifs <;> simp

lemma baseGrade_antitone {c1 c2 : ℤ} (h : c1 ≤ c2) :
    (baseGrade c2).toNat ≤ (baseGrade c1).toNat := by
  unfold baseGrade
  split_ifs <;> first | decide | omega

lemma adjust_antitone (p : ℤ) (a : ℚ) {g1 g2 : Char}
    (h1 : g1 = 'A' ∨ g1 = 'B' ∨ g1 = 'C' ∨ g1 = 'D' ∨ g1 = 'F')
    (h2 : g2 = 'A' ∨ g2 = 'B' ∨ g2 = 'C' ∨ g2 = 'D' ∨ g2 = 'F')
    (hle : g1.toNat ≤ g2.toNat) :
    (altmanAdjust a (pioAdjust p g1)).toNat ≤ (altmanAdjust a (pioAdjust p g2)).toNat := by
  by_cases h7 : 7 ≤ p <;> by_cases h3 : p ≤ 3 <;>
    first
      | (exfalso; omega)
      | (by_cases ha : a < 181 / 100 <;>
          rcases h1 with rfl | rfl | rfl | rfl | rfl <;>
          rcases h2 with rfl | rfl | rfl | rfl | rfl <;>
          revert hle <;>
          simp only [pioAdjust, altmanAdjust, h7, h3, ha] <;> decide)

/-- C5: for fixed Piotroski and Altman inputs, `determine_grade` is monotone in
the composite score: a higher composite never yields a worse letter, where
letters are ordered by their character code (A best, F worst — the accidental
letter E sits between D and F under this order). -/
theorem determine_grade_monotone (p : ℤ) (a : ℚ) (c1 c2 : ℤ) (h : c1 ≤ c2) :
    (determine_grade c2 p a).toNat ≤ (determine_grade c1 p a).toNat := by
  unfold determine_grade
  exact adjust_antitone p a (baseGrade_mem c2) (baseGrade_mem c1) (baseGrade_antitone h)

/-- Witness for C5 at composite scores 40 and 80, Piotroski 5, Altman 2. -/
theorem determine_grade_monotone_witness :
    (40 : ℤ) ≤ 80 ∧ (determine_grade 80 5 2).toNat ≤ (determine_grade 40 5 2).toNat :=
  ⟨by decide, determine_grade_monotone 5 2 40 80 (by decide)⟩

/-- C1: the grade alphabet claim fails on the code: at composite 40,
Piotroski 5 and Altman 1 the Altman downgrade of a D grade produces the
letter E, which is none of A, B, C, D, F.  The dataclass documentation and
the user-facing explanation text list only the five letters, so this is a
slip in the character arithmetic of `determine_grade`. -/
theorem determine_grade_returns_E :
    determine_grade 40 5 1 = 'E' ∧
    ¬(determine_grade 40 5 1 = 'A' ∨ determine_grade 40 5 1 = 'B' ∨
      determine_grade 40 5 1 = 'C' ∨ determine_grade 40 5 1 = 'D' ∨
      determine_grade 40 5 1 = 'F') := by
  have hb : baseGrade 40 = 'D' := by decide
  have hp : pioAdjust 5 'D' = 'D' := by decide
  have ha : altmanAdjust 1 'D' = 'E' := by
    unfold altmanAdjust
    rw [if_pos ⟨by norm_num, by decide⟩]
    decide
  have hg : determine_grade 40 5 1 = 'E' := by
    unfold determine_grade
    rw [hb, hp, ha]
  exact ⟨hg, by rw [hg]; decide⟩

/-- C4: whenever the Altman score is below 1.5, `generate_recommendation`
returns the high-bankruptcy-risk label, whatever the composite, Piotroski and
Graham-upside inputs are: it is the first branch of the decision tree. -/
theorem recommendation_bankruptcy_first (c p : ℤ) (a gu : ℚ) (h : a < 3 / 2) :
    generate_recommendation c p a gu = "Avoid - High Bankruptcy Risk" := by
  unfold generate_recommendation
  rw [if_pos h]

/-- Witness for C4 with maximal composite, Piotroski and upside. -/
theorem recommendation_bankruptcy_first_witness :
    generate_recommendation 100 9 1 1000 = "Avoid - High Bankruptcy Risk" :=
  recommendation_bankruptcy_first 100 9 1 1000 (by norm_num)

lemma composite_score_bounds (v q s d g m : ℕ) :
    0 ≤ calculate_composite_score v q s d g m ∧ calculate_composite_score v q s d g m ≤ 100 := by
  unfold calculate_composite_score
  set S : ℚ := (v : ℚ) * (25 / 100) + (q : ℚ) * (25 / 100) + (s : ℚ) * (20 / 100) +
      (d : ℚ) * (15 / 100) + (g : ℚ) * (10 / 100) + (m : ℚ) * (5 / 100) with hSdef
  have hS : (0 : ℚ) ≤ S := by rw [hSdef]; positivity
  have h0 : (0 : ℚ) ≤ min S 100 := le_min hS (by norm_num)
  rw [pyInt, if_pos h0]
  refine ⟨Int.floor_nonneg.mpr h0, ?_⟩
  have h100 : min S 100 ≤ (100 : ℚ) := min_le_right S 100
  have hfl := Int.floor_le_floor h100
  simpa using hfl

/-- C2: for every input record — all fields optional, any rational values —
each of the six sub-scores is a natural number at most 100 (hence an integer
in [0,100]), and the composite score computed from them is an integer in
[0,100]. -/
theorem scores_bounded (r : CompanyRecord) :
    calculate_value_score r ≤ 100 ∧ calculate_quality_score r ≤ 100 ∧
    calculate_safety_score r ≤ 100 ∧ calculate_dividend_score r ≤ 100 ∧
    calculate_growth_score r ≤ 100 ∧ calculate_momentum_score r ≤ 100 ∧
    0 ≤ calculate_composite_score (calculate_value_score r) (calculate_quality_score r)
        (calculate_safety_score r) (calculate_dividend_score r)
        (calculate_growth_score r) (calculate_momentum_score r) ∧
    calculate_composite_score (calculate_value_score r) (calculate_quality_score r)
        (calculate_safety_score r) (calculate_dividend_score r)
        (calculate_growth_score r) (calculate_momentum_score r) ≤ 100 := by
  refine ⟨?_, ?_, ?_, ?_, ?_, ?_, (composite_score_bounds _ _ _ _ _ _).1,
    (composite_score_bounds _ _ _ _ _ _).2⟩ <;>
    first
      | exact Nat.min_le_right _ 100

/-- Follows the wording of the specification: the composite is the weighted
sum value 0.25, quality 0.25, safety 0.20, dividend 0.15, growth 0.10,
momentum 0.05, clamped to the interval [0,100]. -/
def specWeightedComposite (value quality safety dividend growth momentum : ℚ) : ℚ :=
  max 0 (min (value * (25 / 100) + quality * (25 / 100) + safety * (20 / 100) +
    dividend * (15 / 100) + growth * (10 / 100) + momentum * (5 / 100)) 100)

/-- C3 counterexample: at sub-scores (3,0,0,0,0,0) the code gives 0 while the
clamped weighted sum is 3/4, a gap of 0.75, vastly beyond the 1e-6
tolerance. -/
theorem composite_weighted_sum_counterexample :
    (1 : ℚ) / 1000000 <
      |((calculate_composite_score 3 0 0 0 0 0 : ℤ) : ℚ) -
        specWeightedComposite 3 0 0 0 0 0| := by
  have h1 : calculate_composite_score 3 0 0 0 0 0 = 0 := by
    apply pyInt_eq le_rfl <;> norm_num [min_def]
  have h2 : specWeightedComposite 3 0 0 0 0 0 = 3 / 4 := by
    norm_num [specWeightedComposite, min_def, max_def]
  rw [h1, h2]
  rw [show ((0 : ℤ) : ℚ) - 3 / 4 = -(3 / 4) by norm_num, abs_neg,
    abs_of_nonneg (by norm_num : (0 : ℚ) ≤ 3 / 4)]
  norm_num

/-- C3 amended: for sub-scores in [0,100] the composite equals the integer
truncation (floor) of the weighted sum clamped to [0,100]; the untruncated
equality of the original claim fails by up to one unit. -/
theorem composite_eq_floor_weighted (v q s d g m : ℕ)
    (_hv : v ≤ 100) (_hq : q ≤ 100) (_hs : s ≤ 100) (_hd : d ≤ 100) (_hg : g ≤ 100)
    (_hm : m ≤ 100) :
    calculate_composite_score v q s d g m = ⌊specWeightedComposite v q s d g m⌋ := by
  unfold calculate_composite_score specWeightedComposite
  have hS : (0 : ℚ) ≤ (v : ℚ) * (25 / 100) + (q : ℚ) * (25 / 100) + (s : ℚ) * (20 / 100) +
      (d : ℚ) * (15 / 100) + (g : ℚ) * (10 / 100) + (m : ℚ) * (5 / 100) := by positivity
  have h0 : (0 : ℚ) ≤ min ((v : ℚ) * (25 / 100) + (q : ℚ) * (25 / 100) +
      (s : ℚ) * (20 / 100) + (d : ℚ) * (15 / 100) + (g : ℚ) * (10 / 100) +
      (m : ℚ) * (5 / 100)) 100 := le_min hS (by norm_num)
  rw [max_eq_right h0, pyInt, if_pos h0]

/-- Witness for C3 amended at sub-scores (80, 70, 60, 50, 40, 30). -/
theorem composite_eq_floor_weighted_witness :
    calculate_composite_score 80 70 60 50 40 30 = ⌊specWeightedComposite 80 70 60 50 40 30⌋ :=
  composite_eq_floor_weighted 80 70 60 50 40 30 (by decide) (by decide) (by decide)
    (by decide) (by decide) (by decide)

lemma piotroski_empty : calculate_piotroski_f_score emptyRecord = 0 := by
  norm_num [calculate_piotroski_f_score, getFloat, emptyRecord, min_def]

lemma altman_empty : calculate_altman_z_score emptyRecord = 3 := by
  have h1 : round2 (3 : ℚ) = 3 := by
    rw [round2, show (3 : ℚ) * 100 + 1 / 2 = 601 / 2 by norm_num,
      show ⌊(601 : ℚ) / 2⌋ = 300 from Int.floor_eq_iff.mpr (by constructor <;> norm_num)]
    norm_num
  norm_num [calculate_altman_z_score, getFloat, emptyRecord, min_def, max_def, h1]

lemma graham_empty : calculate_graham_number emptyRecord = 0 := by
  norm_num [calculate_graham_number, getFloat, emptyRecord]

lemma graham_upside_empty : calculate_graham_upside emptyRecord 0 = 0 := by
  norm_num [calculate_graham_upside, getFloat, emptyRecord]

lemma magic_rank_empty : calculate_magic_formula_rank emptyRecord = 77 := by
  have h1 : pyInt (425 / 18 : ℚ) = 23 := pyInt_eq (by norm_num) (by norm_num) (by norm_num)
  norm_num [calculate_magic_formula_rank, getFloat, emptyRecord, min_def, max_def, h1]

lemma quality_empty : calculate_quality_score emptyRecord = 0 := by
  norm_num [calculate_quality_score, getFloat, emptyRecord]

lemma safety_empty : calculate_safety_score emptyRecord = 30 := by
  norm_num [calculate_safety_score, getFloat, emptyRecord]

lemma value_empty : calculate_value_score emptyRecord = 10 := by
  norm_num [calculate_value_score, getFloat, emptyRecord]

lemma dividend_empty : calculate_dividend_score emptyRecord = 0 := by
  norm_num [calculate_dividend_score, getFloat, emptyRecord]

lemma growth_empty : calculate_growth_score emptyRecord = 15 := by
  norm_num [calculate_growth_score, getFloat, emptyRecord]

lemma momentum_empty : calculate_momentum_score emptyRecord = 15 := by
  norm_num [calculate_momentum_score, getFloat, emptyRecord]

lemma composite_empty : calculate_composite_score 10 0 30 0 15 15 = 10 := by
  have h1 : pyInt (43 / 4 : ℚ) = 10 := pyInt_eq (by norm_num) (by norm_num) (by norm_num)
  norm_num [calculate_composite_score, min_def, h1]

lemma grade_empty : determine_grade 10 0 3 = 'F' := by
  have hb : baseGrade 10 = 'F' := by decide
  have hp : pioAdjust 0 'F' = 'F' := by decide
  have ha : altmanAdjust 3 'F' = 'F' := by
    unfold altmanAdjust
    exact if_neg (fun h => absurd rfl h.2)
  unfold determine_grade
  rw [hb, hp, ha]

lemma recommendation_empty : generate_recommendation 10 0 3 0 = "Avoid - Weak Financials" := by
  unfold generate_recommendation
  rw [if_neg (by norm_num), if_pos (by norm_num)]

/-- C6: on the record with every optional field absent (the embedding of the
input with only a symbol), `analyze_company` runs to completion — each step of
the embedding is a total function mirroring the guarded source arithmetic —
and produces the full score set computed from the per-field defaults. -/
theorem analyze_company_on_empty_record :
    analyze_company emptyRecord =
      ⟨0, 3, 0, 0, 77, 0, 30, 10, 0, 15, 15, 10, 'F', "Avoid - Weak Financials"⟩ := by
  simp only [analyze_company]
  rw [piotroski_empty, altman_empty, graham_empty, graham_upside_empty, magic_rank_empty,
    quality_empty, safety_empty, value_empty, dividend_empty, growth_empty, momentum_empty,
    composite_empty, grade_empty, recommendation_empty]

lemma sqrtRound2_spec {q : ℚ} (hq : 0 < q) :
    ((sqrtRound2 q : ℚ) : ℝ) = (⌊(100 : ℝ) * Real.sqrt ((q : ℝ)) + 1 / 2⌋₊ : ℝ) / 100 := by
  have hbn : 0 < q.den := q.pos
  have hb : (0 : ℝ) < (q.den : ℝ) := by exact_mod_cast hbn
  have hnum : ((q.num.toNat : ℤ)) = q.num := Int.toNat_of_nonneg (Rat.num_pos.mpr hq).le
  have hcast : (q : ℝ) = (q.num.toNat : ℝ) / (q.den : ℝ) := by
    rw [Rat.cast_def]
    congr 1
    exact_mod_cast congrArg (fun z : ℤ => ((z : ℝ))) hnum.symm
  have hqR : (0 : ℝ) < (q : ℝ) := by exact_mod_cast hq
  have h2b : (0 : ℝ) < ((2 * q.den : ℕ) : ℝ) := by
    have h : 0 < 2 * q.den := by omega
    exact_mod_cast h
  have hx : ((40000 * q.num.toNat * q.den : ℕ) : ℝ)
      = ((100 : ℝ) * Real.sqrt (q : ℝ) * ((2 * q.den : ℕ) : ℝ)) ^ 2 := by
    have hsq : Real.sqrt ((q : ℝ)) ^ 2 = (q : ℝ) := Real.sq_sqrt hqR.le
    rw [mul_pow, mul_pow, hsq, hcast]
    push_cast
    field_simp
    ring
  have h1 : (100 : ℝ) * Real.sqrt (q : ℝ)
      = Real.sqrt ((40000 * q.num.toNat * q.den : ℕ) : ℝ) / ((2 * q.den : ℕ) : ℝ) := by
    rw [hx, Real.sqrt_sq (by positivity)]
    field_simp
  have h2 : Real.sqrt ((40000 * q.num.toNat * q.den : ℕ) : ℝ) / ((2 * q.den : ℕ) : ℝ) + 1 / 2
      = (Real.sqrt ((40000 * q.num.toNat * q.den : ℕ) : ℝ) + (q.den : ℝ)) /
        ((2 * q.den : ℕ) : ℝ) := by
    push_cast
    field_simp
    ring
  have key : ⌊(100 : ℝ) * Real.sqrt ((q : ℝ)) + 1 / 2⌋₊
      = (Nat.sqrt (40000 * q.num.toNat * q.den) + q.den) / (2 * q.den) := by
    rw [h1, h2, Nat.floor_div_nat, Nat.floor_add_nat (Real.sqrt_nonneg _),
      Real.nat_floor_real_sqrt_eq_nat_sqrt]
  have hval : ((sqrtRound2 q : ℚ) : ℝ)
      = (((Nat.sqrt (40000 * q.num.toNat * q.den) + q.den) / (2 * q.den) : ℕ) : ℝ) / 100 := by
    rw [sqrtRound2]
    push_cast
    ring
  rw [hval, key]

/-- A record carrying only EPS 10 and NAV 40, the worked example of the
specification. -/
def recordEps10Nav40 : CompanyRecord :=
  ⟨none, some 10, none, none, none, none, none, none, none, none, none, none,
   none, none, none, none, some 40, none, none, none, none, none, none, none,
   none⟩

lemma sqrtRound2_9000 : sqrtRound2 (9000 : ℚ) = 9487 / 100 := by
  have hsqrt : Nat.sqrt 360000000 = 18973 := by
    have h1 : 18973 ≤ Nat.sqrt 360000000 := Nat.le_sqrt.mpr (by norm_num)
    have h2 : Nat.sqrt 360000000 < 18974 := Nat.sqrt_lt.mpr (by norm_num)
    omega
  unfold sqrtRound2
  norm_num [show Int.toNat 9000 = 9000 from rfl, hsqrt]

/-- C7: `calculate_graham_number` returns the square root of
`22.5 * eps * nav`, rounded to two decimals, whenever both EPS and NAV are
positive, and 0 otherwise; at EPS 10 and NAV 40 it returns exactly 94.87. -/
theorem graham_number_spec (r : CompanyRecord) :
    (0 < getFloat r.eps 0 → 0 < getFloat r.nav 0 →
      ((calculate_graham_number r : ℚ) : ℝ) =
        (⌊(100 : ℝ) * Real.sqrt ((45 / 2 : ℝ) * (getFloat r.eps 0 : ℝ) *
            (getFloat r.nav 0 : ℝ)) + 1 / 2⌋₊ : ℝ) / 100) ∧
    (¬(0 < getFloat r.eps 0 ∧ 0 < getFloat r.nav 0) → calculate_graham_number r = 0) ∧
    calculate_graham_number recordEps10Nav40 = 9487 / 100 := by
  refine ⟨?_, ?_, ?_⟩
  · intro he hn
    unfold calculate_graham_number
    rw [if_pos ⟨he, hn⟩]
    have hq : (0 : ℚ) < 45 / 2 * getFloat r.eps 0 * getFloat r.nav 0 := by positivity
    rw [sqrtRound2_spec hq]
    have hc : ((45 / 2 * getFloat r.eps 0 * getFloat r.nav 0 : ℚ) : ℝ)
        = (45 / 2 : ℝ) * (getFloat r.eps 0 : ℝ) * (getFloat r.nav 0 : ℝ) := by
      push_cast
      ring
    rw [hc]
  · intro h
    unfold calculate_graham_number
    rw [if_neg h]
  · have h : calculate_graham_number recordEps10Nav40 = sqrtRound2 (9000 : ℚ) := by
      norm_num [calculate_graham_number, getFloat, recordEps10Nav40]
    rw [h, sqrtRound2_9000]

/-- Witness for C7: the positive branch applied at the EPS 10, NAV 40
record. -/
theorem graham_number_spec_witness :
    ((calculate_graham_number recordEps10Nav40 : ℚ) : ℝ) =
      (⌊(100 : ℝ) * Real.sqrt ((45 / 2 : ℝ) * (getFloat recordEps10Nav40.eps 0 : ℝ) *
          (getFloat recordEps10Nav40.nav 0 : ℝ)) + 1 / 2⌋₊ : ℝ) / 100 :=
  (graham_number_spec recordEps10Nav40).1
    (by simp [getFloat, recordEps10Nav40])
    (by simp [getFloat, recordEps10Nav40])

/-- Operator vocabulary of a screening criterion
(screeners.py, `ScreeningCriteria.operator`). -/
inductive ScreenOp
  | gt | lt | gte | lte | eq | between
deriving DecidableEq

/-- Mirror of the `ScreeningCriteria` dataclass (screeners.py, lines 17-25);
`value2` is read only by the `between` operator. -/
structure Criterion where
  name : String
  column : String
  op : ScreenOp
  value : ℚ
  value2 : ℚ
  weight : ℚ

/-- A table row: one optional cell per column name, `none` standing for a
NaN / missing cell. -/
def TableRow : Type := String → Option ℚ

/-- A pandas DataFrame as the screener sees it: its column list and its
rows. -/
structure DataTable where
  cols : List String
  rows : List TableRow

/-- Row-level reading of the mask built in `_apply_criterion` (lines 50-66):
a NaN cell (`none`) fails `notna` and never satisfies a criterion; otherwise
the comparison chosen by the operator is applied. -/
def critSat (r : TableRow) (c : Criterion) : Bool :=
  match r c.column with
  | none => false
  | some x =>
    match c.op with
    | ScreenOp.gt => decide (c.value < x)
    | ScreenOp.lt => decide (x < c.value)
    | ScreenOp.gte => decide (c.value ≤ x)
    | ScreenOp.lte => decide (x ≤ c.value)
    | ScreenOp.eq => decide (x = c.value)
    | ScreenOp.between => decide (c.value ≤ x) && decide (x ≤ c.value2)

/-- Embeds `_apply_criterion` (lines 41-68): an absent column leaves the
frame unchanged (only a warning is logged); otherwise the rows are filtered
by the criterion mask.  Columns are never changed. -/
def apply_criterion (df : DataTable) (c : Criterion) : DataTable :=
  ⟨df.cols, if c.column ∈ df.cols then df.rows.filter (fun r => critSat r c) else df.rows⟩

/-- Embeds `screen` (lines 70-81): an empty frame (pandas `df.empty` is true
when either axis has length zero) yields a fresh empty frame, else the
criteria are folded over `_apply_criterion` in the order given. -/
def screen (df : DataTable) (criteria : List Criterion) : DataTable :=
  if df.rows.isEmpty ∨ df.cols.isEmpty then ⟨[], []⟩
  else criteria.foldl apply_criterion df

lemma apply_criterion_cols (df : DataTable) (c : Criterion) :
    (apply_criterion df c).cols = df.cols := rfl

lemma foldl_apply_rows (cs : List Criterion) (df : DataTable)
    (h : ∀ c ∈ cs, c.column ∈ df.cols) :
    (cs.foldl apply_criterion df).rows
      = df.rows.filter (fun r => cs.all (fun c => critSat r c)) := by
  induction cs generalizing df with
  | nil => simp
  | cons c cs ih =>
    rw [List.foldl_cons, ih _ ?_]
    · have hc : c.column ∈ df.cols := h c (by simp)
      show ((if c.column ∈ df.cols then df.rows.filter (fun r => critSat r c)
          else df.rows).filter (fun r => cs.all (fun c2 => critSat r c2)))
        = df.rows.filter (fun r => (c :: cs).all (fun c2 => critSat r c2))
      rw [if_pos hc, List.filter_filter]
      apply List.filter_congr
      intro r _
      simp [Bool.and_comm]
    · intro c2 hc2
      rw [apply_criterion_cols]
      exact h c2 (List.mem_cons_of_mem _ hc2)

lemma apply_criterion_comm (df : DataTable) (c1 c2 : Criterion) :
    apply_criterion (apply_criterion df c1) c2
      = apply_criterion (apply_criterion df c2) c1 := by
  unfold apply_criterion
  by_cases h1 : c1.column ∈ df.cols <;> by_cases h2 : c2.column ∈ df.cols <;>
    simp only [h1, h2, if_pos, if_neg, if_true, if_false, List.filter_filter]
  · congr 1
    apply List.filter_congr
    intro r _
    simp [Bool.and_comm]

/-- C9 counterexample: a frame with a nonempty row list but no columns (a
legitimate pandas frame, for which `df.empty` is true) is sent by `screen`
to a fresh empty frame even with no criteria at all, so the result is not
the list of rows satisfying every criterion. -/
theorem screen_counterexample :
    (screen ⟨[], [fun _ => none]⟩ []).rows
      ≠ ([fun _ => none] : List TableRow).filter
          (fun r => ([] : List Criterion).all (fun c => critSat r c)) := by
  intro h
  rw [screen] at h
  simp at h

/-- C9 amended: for a frame that is either nonempty in both axes or has no
rows, and criteria whose columns all occur in the frame, `screen` returns
exactly the rows satisfying the conjunction of all criteria (a NaN cell never
satisfies a criterion), and any permutation of the criteria list gives the
same rows.  The original claim fails only on the degenerate
zero-column-with-rows frame of the counterexample. -/
theorem screen_filters_and_permutes (df : DataTable) (cs : List Criterion)
    (hcov : ∀ c ∈ cs, c.column ∈ df.cols) (hdeg : df.cols ≠ [] ∨ df.rows = []) :
    (screen df cs).rows = df.rows.filter (fun r => cs.all (fun c => critSat r c)) ∧
    ∀ cs2 : List Criterion, cs.Perm cs2 → (screen df cs).rows = (screen df cs2).rows := by
  constructor
  · rcases eq_or_ne df.rows [] with hr | hr
    · rw [screen, if_pos (by simp [hr]), hr]
      simp
    · have hc : ¬df.cols.isEmpty := by
        rcases hdeg with h | h
        · simpa using h
        · exact absurd h hr
      rw [screen, if_neg (by simp [hc, List.isEmpty_iff, hr])]
      exact foldl_apply_rows cs df hcov
  · intro cs2 hperm
    unfold screen
    split_ifs with hsplit
    · rfl
    · rw [hperm.foldl_eq' (fun x _ y _ z => apply_criterion_comm z x y) df]

/-- Witness for C9: two criteria on a one-column frame, applied in both
orders. -/
theorem screen_filters_and_permutes_witness :
    (screen ⟨["eps"], [fun _ => some 5]⟩
        [⟨"a", "eps", ScreenOp.gt, 0, 0, 1⟩, ⟨"b", "eps", ScreenOp.lt, 10, 0, 1⟩]).rows
      = ([fun _ => some 5] : List TableRow).filter
          (fun r => ([⟨"a", "eps", ScreenOp.gt, 0, 0, 1⟩,
            ⟨"b", "eps", ScreenOp.lt, 10, 0, 1⟩] : List Criterion).all
              (fun c => critSat r c)) ∧
    (screen ⟨["eps"], [fun _ => some 5]⟩
        [⟨"a", "eps", ScreenOp.gt, 0, 0, 1⟩, ⟨"b", "eps", ScreenOp.lt, 10, 0, 1⟩]).rows
      = (screen ⟨["eps"], [fun _ => some 5]⟩
          [⟨"b", "eps", ScreenOp.lt, 10, 0, 1⟩, ⟨"a", "eps", ScreenOp.gt, 0, 0, 1⟩]).rows := by
  have h := screen_filters_and_permutes ⟨["eps"], [fun _ => some 5]⟩
    [⟨"a", "eps", ScreenOp.gt, 0, 0, 1⟩, ⟨"b", "eps", ScreenOp.lt, 10, 0, 1⟩]
    (by intro c hc; fin_cases hc <;> simp) (Or.inl (by simp))
  exact ⟨h.1, h.2 _ (List.Perm.swap _ _ _)⟩

/-- C10: a criterion whose column is not a column of the frame is skipped:
`_apply_criterion` returns the frame unchanged, removing no row. -/
theorem apply_criterion_absent_column (df : DataTable) (c : Criterion)
    (h : c.column ∉ df.cols) : apply_criterion df c = df := by
  unfold apply_criterion
  rw [if_neg h]

/-- Witness for C10: a P/E criterion against a frame having only an eps
column. -/
theorem apply_criterion_absent_column_witness :
    apply_criterion ⟨["eps"], [fun _ => some 5]⟩ ⟨"a", "pe", ScreenOp.gt, 0, 0, 1⟩
      = ⟨["eps"], [fun _ => some 5]⟩ :=
  apply_criterion_absent_column ⟨["eps"], [fun _ => some 5]⟩
    ⟨"a", "pe", ScreenOp.gt, 0, 0, 1⟩ (by simp)

/-- Row of the fields read by the accruals / earnings-quality computation of
`AdvancedMetricsCalculator` (advanced_metrics.py); `none` stands for an
absent column, for which `df.get(col, 0)` yields the 0 default. -/
structure MetricsRow where
  net_profit : Option ℚ
  operating_cash_flow : Option ℚ
  total_assets : Option ℚ
  free_cash_flow : Option ℚ

/-- Embeds the `fcf_to_net_income` column (advanced_metrics.py,
lines 319-323, computed by `_calculate_cashflow_metrics` before the quality
metrics run): FCF over net profit as a percentage when net profit is
positive, else 0. -/
def fcf_to_net_income (r : MetricsRow) : ℚ :=
  if 0 < r.net_profit.getD 0 then r.free_cash_flow.getD 0 / r.net_profit.getD 0 * 100
  else 0

/-- Embeds the `accruals_ratio` column (`_calculate_quality_metrics`,
lines 339-343): net profit minus operating cash flow over total assets when
total assets are positive, else 0. -/
def accruals_ratio (r : MetricsRow) : ℚ :=
  if 0 < r.total_assets.getD 0 then
    (r.net_profit.getD 0 - r.operating_cash_flow.getD 0) / r.total_assets.getD 0
  else 0

/-- Embeds the `earnings_quality` column (`_calculate_quality_metrics`,
lines 351-356): base 50, +20 when FCF/NI exceeds 80, a further +10 when it
exceeds 100, +15 when the accruals ratio is below 0.05 in absolute value, a
further +5 below 0.02, clipped to [0,100]. -/
def earnings_quality (r : MetricsRow) : ℚ :=
  let b1 : ℚ := if 80 < fcf_to_net_income r then 20 else 0
  let b2 : ℚ := if 100 < fcf_to_net_income r then 10 else 0
  let b3 : ℚ := if |accruals_ratio r| < 5 / 100 then 15 else 0
  let b4 : ℚ := if |accruals_ratio r| < 2 / 100 then 5 else 0
  max 0 (min (50 + b1 + b2 + b3 + b4) 100)

/-- C8 counterexample: on the record with operating_cash_flow = 0,
net_profit = 0 and total_assets = 100 the earnings-quality score is not the
claimed base value 50: the accruals ratio is 0, so both low-accruals bonuses
fire. -/
theorem earnings_quality_zero_record_ne_50 :
    earnings_quality ⟨some 0, some 0, some 100, none⟩ ≠ 50 := by
  norm_num [earnings_quality, fcf_to_net_income, accruals_ratio, min_def, max_def]

/-- C8 amended: on that record the accruals ratio is (0 - 0) / 100 = 0 as
claimed, but the earnings-quality score is 70, not 50: the base 50 gains the
+15 bonus for |accruals| below 0.05 and the +5 bonus for |accruals| below
0.02, both of which trigger at accruals exactly 0, while the two FCF bonuses
stay off. -/
theorem earnings_quality_zero_record :
    accruals_ratio ⟨some 0, some 0, some 100, none⟩ = 0 ∧
    fcf_to_net_income ⟨some 0, some 0, some 100, none⟩ = 0 ∧
    earnings_quality ⟨some 0, some 0, some 100, none⟩ = 70 := by
  refine ⟨?_, ?_, ?_⟩ <;>
    norm_num [earnings_quality, fcf_to_net_income, accruals_ratio, min_def, max_def]
